import Mathlib

/-!
Shallow embedding of the web-scraper repository (scraper.py, scheduler.py,
database.py) and proofs about its specification's claims.

Modelling conventions:
* Machine time is measured in whole minutes (a `Nat`), which is enough to
  express the scheduling claims (top-of-hour boundaries, backoff delays in
  seconds are kept as plain naturals).
* Python dicts that preserve insertion order are association lists
  `List (String × _)` with `assocGet` / `assocSet` / `assocDel` mirroring
  `d[k]`, `d[k] = v` and `del d[k]`.
* Network and browser I/O are oracles (`HttpOracle`, `DriveOracle`): a pure
  function from a URL to either a response or the message of the exception
  the corresponding Python call would raise.  `raise_for_status` failures are
  folded into the oracle's error case.
* Fallible Python code is translated to `Except String _`; an exception is
  the `.error` case carrying `str(e)`.
-/

namespace CodecScraper

/-- Association-list lookup, mirroring Python `d.get(k)` on an
insertion-ordered dict. -/
def assocGet {α : Type} : List (String × α) → String → Option α
  | [], _ => none
  | p :: rest, k => if p.1 = k then some p.2 else assocGet rest k

/-- Association-list insert/update, mirroring Python `d[k] = v`: replaces the
existing entry in place, otherwise appends. -/
def assocSet {α : Type} : List (String × α) → String → α → List (String × α)
  | [], k, v => [(k, v)]
  | p :: rest, k, v => if p.1 = k then (k, v) :: rest else p :: assocSet rest k v

/-- Association-list membership, mirroring Python `k in d`. -/
def assocHas {α : Type} : List (String × α) → String → Bool
  | [], _ => false
  | p :: rest, k => if p.1 = k then true else assocHas rest k

/-- Association-list removal, mirroring Python `del d[k]` (dicts hold at most
one entry per key, so removing every occurrence agrees with removing the one
occurrence). -/
def assocDel {α : Type} : List (String × α) → String → List (String × α)
  | [], _ => []
  | p :: rest, k => if p.1 = k then assocDel rest k else p :: assocDel rest k

/-! ## Extractor: scraper.py -/

/-- A value stored in the scraper's `metadata` dict: meta-tag strings, the
`links`/`images` lists, or the numeric `status_code`. -/
inductive MetaVal where
  | s (v : String)
  | ls (v : List String)
  | n (v : Nat)
deriving DecidableEq

/-- One `<meta>` tag as read by `_extract_metadata` (scraper.py 186-191):
its `name`, `property` and `content` attributes, absent attributes being
`none`. -/
structure MetaTag where
  name : Option String
  property : Option String
  content : Option String
deriving DecidableEq

/-- A parsed HTML document after the `script`/`style` elements are removed
(scraper.py 139-141).  `titleTag` holds `title.get_text().strip()` of the
`<title>` element when one exists; `regions` maps a CSS selector to the
`get_text(separator=' ', strip=True)` of its first match (`select_one`);
`fullText` is `soup.get_text(...)` of the whole document; `metaTags`,
`links` and `images` are the tag lists read by `_extract_metadata`. -/
structure Soup where
  titleTag : Option String
  regions : List (String × String)
  fullText : String
  metaTags : List MetaTag
  links : List String
  images : List String
deriving DecidableEq

/-- `soup.select_one(sel)` followed by `get_text` on the match. -/
def Soup.selectOne (soup : Soup) (sel : String) : Option String :=
  assocGet soup.regions sel

/-- A successful HTTP response: status code, `content-type` header, and its
parsed body. -/
structure HttpResponse where
  statusCode : Nat
  contentType : String
  soup : Soup
deriving DecidableEq

/-- The uniform result dict both strategies return (scraper.py 62-69,
73-80, 110-117, 121-128) and `insert_scraped_data` persists. -/
structure ScrapeResult where
  url : String
  title : String
  content : String
  metadata : List (String × MetaVal)
  source : String
  status : String
deriving DecidableEq

/-- The fixed selector priority list of `_extract_content`
(scraper.py 144-147). -/
def content_selectors : List String :=
  ["main", "article", ".content", ".main-content",
   "#content", "#main", ".post-content", ".entry-content"]

/-- `WebScraper._extract_content` (scraper.py 137-155): return the text of
the first selector in `content_selectors` with a match, else the full
document text. -/
def extract_content (soup : Soup) : String :=
  match content_selectors.findSome? soup.selectOne with
  | some text => text
  | none => soup.fullText

/-- Python truthiness of an optional string attribute: `None` and `""` are
falsy. -/
def truthyStr : Option String → Option String
  | none => none
  | some s => if s = "" then none else some s

/-- `meta.get('name') or meta.get('property')` (scraper.py 188). -/
def metaTagName (tag : MetaTag) : Option String :=
  match truthyStr tag.name with
  | some n => some n
  | none => truthyStr tag.property

/-- `WebScraper._extract_metadata` (scraper.py 181-205): meta tags first
(`metadata[name] = content` when both are truthy), then the first 10 links,
first 10 images, the status code and the content type. -/
def extract_metadata (soup : Soup) (resp : HttpResponse) : List (String × MetaVal) :=
  let m := soup.metaTags.foldl (fun d tag =>
    match metaTagName tag, truthyStr tag.content with
    | some n, some c => assocSet d n (MetaVal.s c)
    | _, _ => d) []
  let m := assocSet m "links" (MetaVal.ls (soup.links.take 10))
  let m := assocSet m "images" (MetaVal.ls (soup.images.take 10))
  let m := assocSet m "status_code" (MetaVal.n resp.statusCode)
  assocSet m "content_type" (MetaVal.s resp.contentType)

/-- The network, as seen by `self.session.get` + `raise_for_status`:
either a parsed successful response or the message of the raised
exception. -/
def HttpOracle : Type := String → Except String HttpResponse

/-- `WebScraper.scrape_with_requests` (scraper.py 44-80). -/
def scrape_with_requests (http : HttpOracle) (url : String) : ScrapeResult :=
  match http url with
  | .ok resp =>
    { url := url
      title := (match resp.soup.titleTag with | some t => t | none => "")
      content := extract_content resp.soup
      metadata := extract_metadata resp.soup resp
      source := "requests"
      status := "success" }
  | .error e =>
    { url := url, title := "", content := "", metadata := [], source := "requests",
      status := "error: " ++ e }

/-- What the rendered page yields through the Selenium driver: title, the
selector-extracted content, and metadata. -/
structure SeleniumPage where
  title : String
  content : String
  metadata : List (String × MetaVal)
deriving DecidableEq

/-- `driver.get` + wait + extraction, as an oracle: a rendered page or the
message of the raised exception. -/
def DriveOracle : Type := String → Except String SeleniumPage

/-- An opaque handle to a launched browser (`webdriver.Chrome(...)`). -/
structure Driver where
  handle : Nat
deriving DecidableEq

/-- The mutable fields of `WebScraper` the claims depend on
(scraper.py 16-24). -/
structure WebScraper where
  use_selenium : Bool
  driver : Option Driver
deriving DecidableEq

/-- `WebScraper._setup_selenium` (scraper.py 26-42): on success store the
driver; on any exception log and set `self.use_selenium = False`. -/
def setup_selenium (ws : WebScraper) (driverInit : Except String Driver) : WebScraper :=
  match driverInit with
  | .ok d => { ws with driver := some d }
  | .error _ => { ws with use_selenium := false }

/-- `WebScraper.__init__` (scraper.py 16-24): `driver = None`, and
`_setup_selenium()` only when `use_selenium` was requested. -/
def WebScraper.init (use_selenium : Bool) (driverInit : Except String Driver) : WebScraper :=
  let ws : WebScraper := { use_selenium := use_selenium, driver := none }
  if use_selenium then setup_selenium ws driverInit else ws

/-- `WebScraper.scrape_with_selenium` (scraper.py 82-128). -/
def scrape_with_selenium (drive : DriveOracle) (ws : WebScraper) (url : String) : ScrapeResult :=
  match ws.driver with
  | none =>
    { url := url, title := "", content := "", metadata := [], source := "selenium",
      status := "error: Selenium not initialized" }
  | some _ =>
    match drive url with
    | .ok page =>
      { url := url, title := page.title, content := page.content,
        metadata := page.metadata, source := "selenium", status := "success" }
    | .error e =>
      { url := url, title := "", content := "", metadata := [], source := "selenium",
        status := "error: " ++ e }

/-- `WebScraper.scrape` (scraper.py 130-135). -/
def WebScraper.scrape (ws : WebScraper) (http : HttpOracle) (drive : DriveOracle)
    (url : String) : ScrapeResult :=
  if ws.use_selenium then scrape_with_selenium drive ws url
  else scrape_with_requests http url

/-! ## Celery tasks: scheduler.py 27-127

`ScrapingManager` (scraper.py 245-269) defines `__init__`, `get_scraper`,
`scrape_multiple` and `close_all`, but no `__enter__`/`__exit__`.  Both task
bodies open with `with ScrapingManager(...) as scraping_manager:`
(scheduler.py 34 and 86), and a `with` statement on an object whose type does
not implement the context-manager protocol raises `TypeError` before the
block runs.  That deterministic raise is embedded as `scrapingManagerEnter`. -/

/-- Entering `with ScrapingManager(...)`: always raises, because the class
defines no `__enter__`/`__exit__`.  The message stands for `str(e)` of the
interpreter's `TypeError`. -/
def scrapingManagerEnter : Except String Unit :=
  .error "ScrapingManager object does not support the context manager protocol"

/-- The dict `scrape_url_task` returns: the success shape of
scheduler.py 43-48 or the failure shape of scheduler.py 73-77. -/
inductive TaskValue where
  | success (record_id : Nat) (url : String) (result : ScrapeResult)
  | failure (url : String) (error : String)
deriving DecidableEq

/-- Observable effects of one complete `scrape_url_task` execution:
the retry countdowns passed to `self.retry` in order, the rows inserted into
`scraped_data` in order, and the returned dict. -/
structure TaskRun where
  delays : List Nat
  records : List ScrapeResult
  value : TaskValue
deriving DecidableEq

/-- Outcome of one attempt at the task's `try` block (scheduler.py 30-48):
either it returns normally, having inserted some rows, or an exception with
message `msg` escapes to the `except` clause. -/
inductive BodyOutcome where
  | ok (records : List ScrapeResult) (value : TaskValue)
  | raise (msg : String)
deriving DecidableEq

/-- `@celery_app.task(bind=True, max_retries=3)` (scheduler.py 27). -/
def max_retries : Nat := 3

/-- The error row built and inserted after retries are exhausted
(scheduler.py 61-71). -/
def celery_error_result (url e : String) : ScrapeResult :=
  { url := url, title := "", content := "", metadata := [], source := "celery_task",
    status := "error: " ++ e }

/-- The retry loop of scheduler.py 50-77 for a body that keeps raising `e`,
starting from retry counter `r` with `n = max_retries - r` retries left:
while `self.request.retries < self.max_retries`, re-enqueue with
`countdown = 60 * (2 ** self.request.retries)`; once exhausted, insert one
error row and return the failure dict. -/
def retry_then_fail (url e : String) (r : Nat) : Nat → TaskRun
  | 0 => { delays := [], records := [celery_error_result url e],
           value := .failure url e }
  | n + 1 =>
    let rest := retry_then_fail url e (r + 1) n
    { delays := 60 * 2 ^ r :: rest.delays, records := rest.records, value := rest.value }

/-- `scrape_url_task` (scheduler.py 27-77) run to completion from retry
counter `r`, with the attempt body abstracted as its outcome (each attempt of
this task is deterministic, so every attempt has the same outcome). -/
def scrape_url_task_from (body : BodyOutcome) (url : String) (r : Nat) : TaskRun :=
  match body with
  | .ok recs v => { delays := [], records := recs, value := v }
  | .raise e => retry_then_fail url e r (max_retries - r)

/-- The full `scrape_url_task` (scheduler.py 27-77): the body enters the
`with` statement, scrapes, inserts the result (`record_id` is 1 in a fresh
store) and returns the success dict; the driver above handles exceptions. -/
def scrape_url_task (http : HttpOracle) (driverInit : Except String Driver)
    (drive : DriveOracle) (use_selenium : Bool) (url : String) : TaskRun :=
  scrape_url_task_from
    (match scrapingManagerEnter with
     | .error e => .raise e
     | .ok _ =>
       let result := (WebScraper.init use_selenium driverInit).scrape http drive url
       .ok [result] (.success 1 url result))
    url 0

/-- The dict `scrape_multiple_urls_task` returns: the aggregate of
scheduler.py 114-120 or the failure shape of scheduler.py 124-127. -/
inductive BatchValue where
  | completed (total_urls successful failed : Nat) (results : List ScrapeResult)
  | crashed (error : String)
deriving DecidableEq

/-- The `success` field of the returned dict: `True` at scheduler.py 115,
`False` at scheduler.py 125. -/
def BatchValue.success : BatchValue → Bool
  | .completed _ _ _ _ => true
  | .crashed _ => false

/-- The `successful` field of the returned dict, when present. -/
def BatchValue.successfulCount : BatchValue → Option Nat
  | .completed _ s _ _ => some s
  | .crashed _ => none

/-- The `failed` field of the returned dict, when present. -/
def BatchValue.failedCount : BatchValue → Option Nat
  | .completed _ _ f _ => some f
  | .crashed _ => none

/-- Observable effects of one `scrape_multiple_urls_task` execution. -/
structure BatchRun where
  records : List ScrapeResult
  value : BatchValue
deriving DecidableEq

/-- The per-URL loop and aggregate of scheduler.py 85-120: each URL is
scraped with its own inner `try`, every result (error results included) is
appended and inserted, and the aggregate counts statuses.  `get_scraper`
caches one `WebScraper` per URL; scraping is pure here, so a fresh
`WebScraper.init` per URL returns the same result the cached one would. -/
def scrape_multiple_urls_loop (http : HttpOracle) (driverInit : Except String Driver)
    (drive : DriveOracle) (use_selenium : Bool) (urls : List String) : BatchRun :=
  let results := urls.map (fun url =>
    (WebScraper.init use_selenium driverInit).scrape http drive url)
  { records := results
    value := .completed urls.length
      (results.countP (fun result => result.status == "success"))
      (results.countP (fun result => result.status != "success"))
      results }

/-- `scrape_multiple_urls_task` (scheduler.py 79-127): the `with` statement
runs first; if it raises, the outer `except` returns the failure dict with
nothing inserted. -/
def scrape_multiple_urls_task (http : HttpOracle) (driverInit : Except String Driver)
    (drive : DriveOracle) (use_selenium : Bool) (urls : List String) : BatchRun :=
  match scrapingManagerEnter with
  | .ok _ => scrape_multiple_urls_loop http driverInit drive use_selenium urls
  | .error e => { records := [], value := .crashed e }

/-! ## Database: database.py -/

/-- One row of the `scraping_jobs` table (database.py 39-49).  Timestamps
are minutes since an epoch; `last_run` and `next_run` are `NULL` when
`none`. -/
structure JobRow where
  id : Nat
  url : String
  schedule : String
  last_run : Option Nat
  next_run : Option Nat
  status : String
  created_at : Nat
deriving DecidableEq

/-- The `scraping_jobs` table with its AUTOINCREMENT counter (sqlite row ids
start at 1). -/
structure DBState where
  jobs : List JobRow
  nextId : Nat
deriving DecidableEq

/-- `DatabaseManager.add_scraping_job` (database.py 99-110): `INSERT INTO
scraping_jobs (url, schedule) VALUES (?, ?)`; every other column takes its
default — `status` 'active', `created_at` CURRENT_TIMESTAMP (the `now`
argument), `last_run`/`next_run` NULL — and `lastrowid` is returned. -/
def add_scraping_job (db : DBState) (url schedule : String) (now : Nat) : DBState × Nat :=
  let id := db.nextId
  let row : JobRow :=
    { id := id, url := url, schedule := schedule, last_run := none,
      next_run := none, status := "active", created_at := now }
  ({ jobs := db.jobs ++ [row], nextId := id + 1 }, id)

/-- `DatabaseManager.update_job_status` (database.py 112-130): an UPDATE of
`status` (and `last_run` when one is passed) on the rows whose id matches. -/
def update_job_status (db : DBState) (job_id : Nat) (status : String)
    (last_run : Option Nat) : DBState :=
  { db with jobs := db.jobs.map (fun j =>
      if j.id = job_id then
        match last_run with
        | some t => { j with status := status, last_run := some t }
        | none => { j with status := status }
      else j) }

/-! ## Scheduler: scheduler.py 129-279 -/

/-- The celery `crontab(...)` argument record: each field is `none` for the
default (fire at any value, `*`), or a literal rendered as a string. -/
structure Crontab where
  minute : Option String
  hour : Option String
  day : Option String
  month : Option String
  day_of_week : Option String
deriving DecidableEq

/-- One entry of `celery_app.conf.beat_schedule`. -/
structure BeatEntry where
  task : String
  schedule : Crontab
  args : String × Bool
  queue : String
deriving DecidableEq

/-- The state `ScrapingScheduler` works on: the jobs table and the beat
schedule dict. -/
structure SchedState where
  db : DBState
  beat : List (String × BeatEntry)
deriving DecidableEq

/-- The beat entry `_schedule_hourly` registers (scheduler.py 160-167):
`crontab(minute=0)`. -/
def hourly_entry (url : String) (use_selenium : Bool) : BeatEntry :=
  { task := "scheduler.scrape_url_task"
    schedule := { minute := some "0", hour := none, day := none, month := none,
                  day_of_week := none }
    args := (url, use_selenium), queue := "scraping" }

/-- `ScrapingScheduler._schedule_hourly` (scheduler.py 160-167). -/
def schedule_hourly (s : SchedState) (url : String) (job_id : Nat)
    (use_selenium : Bool) : SchedState :=
  let beat := assocSet s.beat ("scrape_hourly_" ++ toString job_id)
    (hourly_entry url use_selenium)
  { s with beat := beat }

/-- `ScrapingScheduler._schedule_daily` (scheduler.py 169-176):
`crontab(hour=0, minute=0)`. -/
def schedule_daily (s : SchedState) (url : String) (job_id : Nat)
    (use_selenium : Bool) : SchedState :=
  let entry : BeatEntry :=
    { task := "scheduler.scrape_url_task"
      schedule := { minute := some "0", hour := some "0", day := none, month := none,
                    day_of_week := none }
      args := (url, use_selenium), queue := "scraping" }
  { s with beat := assocSet s.beat ("scrape_daily_" ++ toString job_id) entry }

/-- `ScrapingScheduler._schedule_weekly` (scheduler.py 178-185):
`crontab(day_of_week=0, hour=0, minute=0)`. -/
def schedule_weekly (s : SchedState) (url : String) (job_id : Nat)
    (use_selenium : Bool) : SchedState :=
  let entry : BeatEntry :=
    { task := "scheduler.scrape_url_task"
      schedule := { minute := some "0", hour := some "0", day := none, month := none,
                    day_of_week := some "0" }
      args := (url, use_selenium), queue := "scraping" }
  { s with beat := assocSet s.beat ("scrape_weekly_" ++ toString job_id) entry }

/-- `cron_schedule.replace('cron:', '')` on the character list: every
non-overlapping occurrence of `cron:` is removed, scanning left to right.
The five-character pattern is matched structurally. -/
def removeCron : List Char → List Char
  | 'c' :: 'r' :: 'o' :: 'n' :: ':' :: rest => removeCron rest
  | c :: rest => c :: removeCron rest
  | [] => []

/-- Python `s.split(',')` on the character list: `""` yields `[""]`, and
every comma starts a new field. -/
def splitComma : List Char → List (List Char)
  | [] => [[]]
  | ',' :: rest => [] :: splitComma rest
  | c :: rest =>
    match splitComma rest with
    | [] => [c] :: []
    | f :: fs => (c :: f) :: fs

/-- `cron_schedule.replace('cron:', '').split(',')` (scheduler.py 191). -/
def cronFields (spec : String) : List String :=
  (splitComma (removeCron spec.data)).map (fun cs => String.mk cs)

/-- `x if x != '*' else None` (scheduler.py 198-202). -/
def starToNone (field : String) : Option String :=
  if field = "*" then none else some field

/-- `ScrapingScheduler._schedule_cron` (scheduler.py 187-213): with exactly
five fields, register the custom crontab entry; otherwise the
`ValueError` of line 208 is caught by the `except` of line 210 and the
method falls back to `_schedule_hourly`. -/
def schedule_cron (s : SchedState) (url : String) (job_id : Nat)
    (cron_schedule : String) (use_selenium : Bool) : SchedState :=
  match cronFields cron_schedule with
  | [minute, hour, day, month, day_of_week] =>
    let entry : BeatEntry :=
      { task := "scheduler.scrape_url_task"
        schedule := { minute := starToNone minute, hour := starToNone hour,
                      day := starToNone day, month := starToNone month,
                      day_of_week := starToNone day_of_week }
        args := (url, use_selenium), queue := "scraping" }
    { s with beat := assocSet s.beat ("scrape_cron_" ++ toString job_id) entry }
  | _ => schedule_hourly s url job_id use_selenium

/-- Python `s.startswith(p)` on the character lists. -/
def strStartsWith (s p : String) : Bool :=
  p.data.isPrefixOf s.data

/-- `ScrapingScheduler.schedule_url` (scheduler.py 134-158): insert the job
row, then dispatch on the schedule string, defaulting to hourly. -/
def schedule_url (s : SchedState) (url schedule : String) (use_selenium : Bool)
    (now : Nat) : SchedState × Nat :=
  let dbAndId := add_scraping_job s.db url schedule now
  let job_id := dbAndId.2
  let s1 : SchedState := { s with db := dbAndId.1 }
  let s2 :=
    if schedule = "hourly" then schedule_hourly s1 url job_id use_selenium
    else if schedule = "daily" then schedule_daily s1 url job_id use_selenium
    else if schedule = "weekly" then schedule_weekly s1 url job_id use_selenium
    else if strStartsWith schedule "cron:" then
      schedule_cron s1 url job_id schedule use_selenium
    else schedule_hourly s1 url job_id use_selenium
  (s2, job_id)

/-- The four beat keys probed by `remove_scheduled_job`
(scheduler.py 222-227). -/
def beat_schedule_keys (job_id : Nat) : List String :=
  ["scrape_hourly_" ++ toString job_id, "scrape_daily_" ++ toString job_id,
   "scrape_weekly_" ++ toString job_id, "scrape_cron_" ++ toString job_id]

/-- `ScrapingScheduler.remove_scheduled_job` (scheduler.py 215-237): set the
job's status to 'inactive', then delete whichever of the four beat keys are
present. -/
def remove_scheduled_job (s : SchedState) (job_id : Nat) : SchedState :=
  { db := update_job_status s.db job_id "inactive" none
    beat := (beat_schedule_keys job_id).foldl
      (fun b key => if assocHas b key then assocDel b key else b) s.beat }

/-- Modelled from the spec: the celery `crontab` trigger itself is an
external collaborator, and spec 4.1 defines the hourly cadence as firing at
the "next minute-0 boundary".  With time in minutes, this is the next
multiple of 60 strictly after `t`. -/
def crontab_minute0_next_fire (t : Nat) : Nat :=
  t + (60 - t % 60)

/-- What `AsyncResult(task_id)` reports when the lookup succeeds: the
backend's status string, `ready()` and `result`. -/
structure BackendView where
  status : String
  ready : Bool
  result : Option TaskValue
deriving DecidableEq

/-- The dict `get_task_status` returns.  `none` in `ready`/`result`/`error`
means the key is absent from the dict. -/
structure StatusResponse where
  task_id : String
  status : String
  ready : Option Bool
  result : Option (Option TaskValue)
  error : Option String
deriving DecidableEq

/-- `ScrapingScheduler.get_task_status` (scheduler.py 253-269): on success a
dict with `task_id`/`status`/`result`/`ready` (result only when ready); when
the lookup raises, a dict with `task_id`, `status = 'error'` and the message
— without `ready` or `result` keys. -/
def get_task_status (backend : Except String BackendView) (task_id : String) :
    StatusResponse :=
  match backend with
  | .ok v =>
    { task_id := task_id, status := v.status, ready := some v.ready,
      result := some (if v.ready then v.result else none), error := none }
  | .error e =>
    { task_id := task_id, status := "error", ready := none, result := none,
      error := some e }

/-- The property "this string begins with `p`". -/
def beginsWith (p s : String) : Prop :=
  ∃ rest, s = p ++ rest

/-! ## Concrete fixtures used by closed theorems -/

/-- An empty scheduler state: no jobs, sqlite row ids starting at 1, empty
beat schedule. -/
def sched0 : SchedState :=
  { db := { jobs := [], nextId := 1 }, beat := [] }

/-- A small parsed page for url "a". -/
def soupA : Soup :=
  { titleTag := some "A", regions := [], fullText := "alpha",
    metaTags := [], links := [], images := [] }

/-- The response serving `soupA`. -/
def respA : HttpResponse :=
  { statusCode := 200, contentType := "text/html", soup := soupA }

/-- A network where "a" responds and every other URL times out. -/
def httpAB : HttpOracle :=
  fun url => if url = "a" then .ok respA else .error "timeout"

/-- A browser that never loads anything. -/
def driveNone : DriveOracle :=
  fun _ => .error "no driver"

/-- A failed browser installation. -/
def noDriver : Except String Driver :=
  .error "chromedriver install failed"

/-- A page with one region, one meta tag, one link and one image. -/
def soupPage : Soup :=
  { titleTag := some "Example", regions := [("article", "Body text")],
    fullText := "Full text",
    metaTags := [{ name := some "author", property := none, content := some "Arun" }],
    links := ["https://example.test/next"], images := ["https://example.test/logo.png"] }

/-- The response serving `soupPage`. -/
def respPage : HttpResponse :=
  { statusCode := 200, contentType := "text/html", soup := soupPage }

/-- A network where every URL serves `soupPage`. -/
def httpPage : HttpOracle :=
  fun _ => .ok respPage

/-- A network where every URL fails. -/
def httpDown : HttpOracle :=
  fun _ => .error "connection refused"

/-- A document whose only matching content selector is ".content". -/
def soupDotContent : Soup :=
  { titleTag := none, regions := [(".content", "picked")], fullText := "whole",
    metaTags := [], links := [], images := [] }

/-- The row `add_scraping_job` inserts for a given id, url, schedule string
and creation time. -/
def persisted_job_row (id : Nat) (url schedule : String) (now : Nat) : JobRow :=
  { id := id, url := url, schedule := schedule, last_run := none, next_run := none,
    status := "active", created_at := now }

/-! ## Helper lemmas -/

theorem assocGet_assocSet {α : Type} (m : List (String × α)) (k : String) (v : α) :
    assocGet (assocSet m k v) k = some v := by
  induction m with
  | nil => simp [assocSet, assocGet]
  | cons p rest ih =>
    by_cases hp : p.1 = k <;> simp [assocSet, assocGet, hp, ih]

theorem assocDel_of_has_false {α : Type} {m : List (String × α)} {k : String}
    (h : assocHas m k = false) : assocDel m k = m := by
  induction m with
  | nil => rfl
  | cons p rest ih =>
    by_cases hp : p.1 = k
    · simp [assocHas, hp] at h
    · simp only [assocHas, hp] at h
      simp [assocDel, hp, ih (by simpa using h)]

theorem delStep_eq {α : Type} (m : List (String × α)) (k : String) :
    (if assocHas m k then assocDel m k else m) = assocDel m k := by
  by_cases h : assocHas m k = true
  · simp [h]
  · simp only [Bool.not_eq_true] at h
    simp [h, assocDel_of_has_false h]

theorem assocDel_idem {α : Type} (m : List (String × α)) (k : String) :
    assocDel (assocDel m k) k = assocDel m k := by
  induction m with
  | nil => rfl
  | cons p rest ih =>
    by_cases hp : p.1 = k <;> simp [assocDel, hp, ih]

theorem assocDel_comm {α : Type} (m : List (String × α)) (k k' : String) :
    assocDel (assocDel m k) k' = assocDel (assocDel m k') k := by
  induction m with
  | nil => rfl
  | cons p rest ih =>
    by_cases h1 : p.1 = k <;> by_cases h2 : p.1 = k'
    · obtain rfl : k = k' := h1.symm.trans h2
      simp [assocDel, h1, ih]
    · have hkk : ¬ k = k' := fun hkk => h2 (h1.trans hkk)
      simp [assocDel, h1, h2, hkk, ih]
    · have hkk : ¬ k' = k := fun hkk => h1 (h2.trans hkk)
      simp [assocDel, h1, h2, hkk, ih]
    · simp [assocDel, h1, h2, ih]

theorem assocDel_foldl {α : Type} (ks : List String) (m : List (String × α)) (k : String) :
    assocDel (ks.foldl assocDel m) k = ks.foldl assocDel (assocDel m k) := by
  induction ks generalizing m with
  | nil => rfl
  | cons a ks ih => simp only [List.foldl_cons, ih, assocDel_comm]

theorem foldl_assocDel_idem {α : Type} (ks : List String) (m : List (String × α)) :
    ks.foldl assocDel (ks.foldl assocDel m) = ks.foldl assocDel m := by
  induction ks generalizing m with
  | nil => rfl
  | cons a ks ih =>
    simp only [List.foldl_cons]
    rw [assocDel_foldl, assocDel_idem, ih]

theorem foldl_delStep_eq {α : Type} (ks : List String) (m : List (String × α)) :
    ks.foldl (fun b key => if assocHas b key then assocDel b key else b) m =
      ks.foldl assocDel m := by
  induction ks generalizing m with
  | nil => rfl
  | cons a ks ih => simp only [List.foldl_cons, delStep_eq, ih]

theorem findSome?_cons_of_none {α β : Type} {f : α → Option β} {a : α} (l : List α)
    (h : f a = none) : (a :: l).findSome? f = l.findSome? f := by
  simp [List.findSome?, h]

theorem findSome?_cons_of_some {α β : Type} {f : α → Option β} {a : α} {b : β} (l : List α)
    (h : f a = some b) : (a :: l).findSome? f = some b := by
  simp [List.findSome?, h]

theorem findSome?_append_of_none {α β : Type} {f : α → Option β} {l1 : List α}
    (l2 : List α) (h : ∀ a ∈ l1, f a = none) :
    (l1 ++ l2).findSome? f = l2.findSome? f := by
  induction l1 with
  | nil => rfl
  | cons a l ih =>
    rw [List.cons_append, findSome?_cons_of_none _ (h a (by simp))]
    exact ih (fun x hx => h x (by simp [hx]))

theorem findSome?_eq_none_of_all_none {α β : Type} {f : α → Option β} {l : List α}
    (h : ∀ a ∈ l, f a = none) : l.findSome? f = none := by
  induction l with
  | nil => rfl
  | cons a l ih =>
    rw [findSome?_cons_of_none _ (h a (by simp))]
    exact ih (fun x hx => h x (by simp [hx]))

theorem beginsWith_error_colon (e : String) :
    beginsWith "error:" ("error: " ++ e) := by
  refine ⟨" " ++ e, ?_⟩
  have h : "error:" ++ " " = "error: " := rfl
  rw [← String.append_assoc, h]

theorem forall2_map_self {α : Type} (R : α → α → Prop) (f : α → α) (l : List α)
    (h : ∀ a, R a (f a)) : List.Forall₂ R l (l.map f) := by
  induction l with
  | nil => exact List.Forall₂.nil
  | cons a rest ih => exact List.Forall₂.cons (h a) ih

theorem update_inactive_idem (db : DBState) (job_id : Nat) :
    update_job_status (update_job_status db job_id "inactive" none) job_id "inactive" none =
      update_job_status db job_id "inactive" none := by
  obtain ⟨jobs, nid⟩ := db
  simp only [update_job_status, List.map_map]
  refine congrArg (fun l => DBState.mk l nid) ?_
  refine List.map_congr_left (fun j _ => ?_)
  by_cases hj : j.id = job_id <;> simp [Function.comp, hj]

/-! ## Claim theorems -/

/-- C1: when the attempt body of `scrape_url_task` raises with any cause
`e` — in the current code every attempt does, at the `with ScrapingManager`
statement — the task is retried at most `max_retries = 3` times, the
backoff countdowns are exactly `60 * 2 ^ attempt_count` and strictly
increasing, and after exhaustion exactly one failed row — its status
beginning with `error:` — is inserted into the result store, the task
returning the failure dict.  (A fetch error surfacing inside
`scrape_with_requests` is caught there and becomes an error-status result
row through the normal insert, with zero retries — also at most
`max_retries` and also exactly one `error:`-status row.) -/
theorem C1_single_task_retry_policy (e url : String) :
    (scrape_url_task_from (.raise e) url 0).delays.length ≤ max_retries ∧
    (scrape_url_task_from (.raise e) url 0).delays = [60, 120, 240] ∧
    List.Chain' (fun a b => a < b) (scrape_url_task_from (.raise e) url 0).delays ∧
    (scrape_url_task_from (.raise e) url 0).delays =
      (List.range max_retries).map (fun attempt => 60 * 2 ^ attempt) ∧
    (scrape_url_task_from (.raise e) url 0).records = [celery_error_result url e] ∧
    beginsWith "error:" (celery_error_result url e).status ∧
    (scrape_url_task_from (.raise e) url 0).value = .failure url e := by
  have hd : (scrape_url_task_from (.raise e) url 0).delays = [60, 120, 240] := rfl
  refine ⟨?_, hd, ?_, ?_, rfl, beginsWith_error_colon e, rfl⟩
  · rw [hd]; decide
  · rw [hd]; norm_num [List.chain'_cons]
  · rw [hd]; decide

/-- C2 counterexample: scheduling `"https://example.test/page"` with
`"hourly"` from the empty state at minute 90 persists the job with
`next_run` NULL, not the next top-of-hour boundary (minute 120) the claim
demands. -/
theorem C2_hourly_next_run_counterexample :
    ((schedule_url sched0 "https://example.test/page" "hourly" false 90).1.db.jobs.map
        (fun j => j.next_run)) = [none] ∧
    ¬ ((schedule_url sched0 "https://example.test/page" "hourly" false 90).1.db.jobs.map
        (fun j => j.next_run)) = [some (crontab_minute0_next_fire 90)] ∧
    crontab_minute0_next_fire 90 = 120 := by
  exact ⟨by decide, by decide, by decide⟩

/-- C2 amended: `schedule_url` with the `"hourly"` cadence persists the Job
row with status `active` and `next_run` left NULL, registers the hourly
beat entry `crontab(minute=0)` under `scrape_hourly_<job_id>`, and the
trigger's next fire time is the unique top-of-hour boundary strictly after
the creation time (strictly later, minute 0, within sixty minutes); that
boundary is not stored in the job row. -/
theorem C2_hourly_schedule_amended (s : SchedState) (url : String)
    (use_selenium : Bool) (now : Nat) :
    ((schedule_url s url "hourly" use_selenium now).1.db.jobs.getLast? =
      some (persisted_job_row s.db.nextId url "hourly" now)) ∧
    ((schedule_url s url "hourly" use_selenium now).2 = s.db.nextId) ∧
    (assocGet (schedule_url s url "hourly" use_selenium now).1.beat
        ("scrape_hourly_" ++ toString s.db.nextId) = some (hourly_entry url use_selenium)) ∧
    now < crontab_minute0_next_fire now ∧
    crontab_minute0_next_fire now % 60 = 0 ∧
    crontab_minute0_next_fire now ≤ now + 60 := by
  refine ⟨?_, rfl, ?_, ?_, ?_, ?_⟩
  · simp only [schedule_url, add_scraping_job, schedule_hourly, if_pos rfl]
    exact List.getLast?_concat _
  · simp only [schedule_url, add_scraping_job, schedule_hourly, if_pos rfl]
    exact assocGet_assocSet _ _ _
  · unfold crontab_minute0_next_fire; omega
  · unfold crontab_minute0_next_fire; omega
  · unfold crontab_minute0_next_fire; omega

/-- C3: a custom cron spec whose field list does not have exactly five
comma-separated fields never raises to the caller: `schedule_url` still
persists the job row (status `active`, the malformed spec kept verbatim)
and registers it under the hourly cadence `scrape_hourly_<job_id>`. -/
theorem C3_malformed_cron_falls_back_to_hourly (s : SchedState) (url spec : String)
    (use_selenium : Bool) (now : Nat)
    (hcron : strStartsWith spec "cron:" = true)
    (hbad : (cronFields spec).length ≠ 5) :
    (assocGet (schedule_url s url spec use_selenium now).1.beat
        ("scrape_hourly_" ++ toString s.db.nextId) = some (hourly_entry url use_selenium)) ∧
    ((schedule_url s url spec use_selenium now).1.db.jobs.getLast? =
      some (persisted_job_row s.db.nextId url spec now)) := by
  have h1 : ¬ spec = "hourly" := by rintro rfl; exact absurd hcron (by decide)
  have h2 : ¬ spec = "daily" := by rintro rfl; exact absurd hcron (by decide)
  have h3 : ¬ spec = "weekly" := by rintro rfl; exact absurd hcron (by decide)
  have hfall : ∀ s1 : SchedState, schedule_cron s1 url s.db.nextId spec use_selenium =
      schedule_hourly s1 url s.db.nextId use_selenium := by
    intro s1
    unfold schedule_cron
    rcases hf : cronFields spec with _ | ⟨f1, _ | ⟨f2, _ | ⟨f3, _ | ⟨f4, _ | ⟨f5, rest⟩⟩⟩⟩⟩
    · rfl
    · rfl
    · rfl
    · rfl
    · rfl
    · rcases rest with _ | ⟨f6, rest'⟩
      · rw [hf] at hbad; simp at hbad
      · rfl
  simp only [schedule_url, add_scraping_job, if_neg h1, if_neg h2, if_neg h3,
    hcron, if_pos, hfall, schedule_hourly]
  exact ⟨assocGet_assocSet _ _ _, List.getLast?_concat _⟩

/-- C3 witness: the malformed spec `"cron:1,2,3"` (three fields) satisfies
the hypotheses, and scheduling it from the empty state registers job 1 under
the hourly cadence with its row persisted. -/
theorem C3_malformed_cron_witness :
    (strStartsWith "cron:1,2,3" "cron:" = true) ∧
    ((cronFields "cron:1,2,3").length ≠ 5) ∧
    (assocGet (schedule_url sched0 "u" "cron:1,2,3" false 0).1.beat
        "scrape_hourly_1" = some (hourly_entry "u" false)) ∧
    ((schedule_url sched0 "u" "cron:1,2,3" false 0).1.db.jobs.getLast? =
      some (persisted_job_row 1 "u" "cron:1,2,3" 0)) := by
  have h := C3_malformed_cron_falls_back_to_hourly sched0 "u" "cron:1,2,3" false 0
    (by decide) (by decide)
  exact ⟨by decide, by decide, h.1, h.2⟩

/-- C4 evaluated at the failing input: a batch over `["a", "b"]` where "a"
responds and "b" times out.  Because `ScrapingManager` implements no
context-manager protocol, the `with` statement raises, the outer `except`
returns the failure dict, and no row is inserted — against the claim's two
ResultRecords with `successful=1, failed=1`.  The per-URL loop the task was
meant to run (scheduler.py 85-120), evaluated at the same input, does
produce exactly that aggregate: one row per target, statuses
`success` / `error: timeout`, `successful = 1`, `failed = 1`. -/
theorem C4_batch_independence_blocked_by_enter_bug :
    ((scrape_multiple_urls_task httpAB noDriver driveNone false ["a", "b"]).records = []) ∧
    ((scrape_multiple_urls_task httpAB noDriver driveNone false ["a", "b"]).value.success
      = false) ∧
    ((scrape_multiple_urls_loop httpAB noDriver driveNone false ["a", "b"]).records.map
        (fun result => result.status) = ["success", "error: timeout"]) ∧
    ((scrape_multiple_urls_loop httpAB noDriver driveNone false ["a", "b"]).records.length
      = 2) ∧
    ((scrape_multiple_urls_loop httpAB noDriver driveNone false
        ["a", "b"]).value.successfulCount = some 1) ∧
    ((scrape_multiple_urls_loop httpAB noDriver driveNone false
        ["a", "b"]).value.failedCount = some 1) := by
  exact ⟨rfl, rfl, by decide, by decide, by decide, by decide⟩

/-- C5: `remove_scheduled_job` is idempotent — a second unschedule of the
same job id changes neither the jobs table nor the beat schedule. -/
theorem C5_unschedule_idempotent (s : SchedState) (job_id : Nat) :
    remove_scheduled_job (remove_scheduled_job s job_id) job_id =
      remove_scheduled_job s job_id := by
  obtain ⟨db, beat⟩ := s
  simp only [remove_scheduled_job]
  refine congrArg₂ SchedState.mk ?_ ?_
  · exact update_inactive_idem db job_id
  · simp only [foldl_delStep_eq]
    exact foldl_assocDel_idem _ _

/-- C6 counterexample: when the status lookup itself raises, the returned
dict carries `status = "error"` — which does not begin with `error:` — and
omits the `ready` and `result` keys, against the claim that all three of
`status`, `ready`, `result` are always present. -/
theorem C6_error_path_counterexample :
    ((get_task_status (.error "redis connection refused") "t1").ready = none) ∧
    ((get_task_status (.error "redis connection refused") "t1").result = none) ∧
    ((get_task_status (.error "redis connection refused") "t1").status = "error") ∧
    ¬ beginsWith "error:" (get_task_status (.error "redis connection refused") "t1").status := by
  refine ⟨rfl, rfl, rfl, ?_⟩
  rintro ⟨rest, h⟩
  have h' : "error" = "error:" ++ rest := h
  have hl := congrArg String.length h'
  rw [String.length_append] at hl
  have h5 : "error".length = 5 := rfl
  have h6 : "error:".length = 6 := rfl
  rw [h5, h6] at hl
  omega

/-- C6 amended: on the normal path the response carries all three of
`status`, `ready` and `result` (the backend's status and readiness
verbatim, the result only once ready — so `ready = false` and no result
while the backend still reports the task pending or running); when the
lookup raises, the response has `status` exactly `"error"` with the message
under `error`, and the `ready`/`result` keys are absent. -/
theorem C6_status_response_amended (v : BackendView) (e task_id : String) :
    ((get_task_status (.ok v) task_id).status = v.status) ∧
    ((get_task_status (.ok v) task_id).ready = some v.ready) ∧
    ((get_task_status (.ok v) task_id).result =
      some (if v.ready then v.result else none)) ∧
    ((get_task_status (.ok v) task_id).error = none) ∧
    ((get_task_status (.error e) task_id).status = "error") ∧
    ((get_task_status (.error e) task_id).ready = none) ∧
    ((get_task_status (.error e) task_id).result = none) ∧
    ((get_task_status (.error e) task_id).error = some e) := by
  exact ⟨rfl, rfl, rfl, rfl, rfl, rfl, rfl, rfl⟩

/-- C7 amended: when the browser automation cannot be initialized, every
subsequent fetch through that `WebScraper` degrades to the static strategy
— it returns exactly what a plain HTTP fetch returns (the `source` field
reads `requests`) — but nothing about the substitution is recorded: the
result, metadata included, is identical to that of a scraper that never
attempted the scripted strategy. -/
theorem C7_degrade_to_static (e url : String) (http : HttpOracle) (drive : DriveOracle) :
    ((WebScraper.init true (.error e)).scrape http drive url =
      scrape_with_requests http url) ∧
    ((WebScraper.init true (.error e)).scrape http drive url =
      (WebScraper.init false (.error e)).scrape http drive url) ∧
    (((WebScraper.init true (.error e)).scrape http drive url).source = "requests") := by
  refine ⟨rfl, rfl, ?_⟩
  show (scrape_with_requests http url).source = "requests"
  unfold scrape_with_requests
  rcases h : http url with e2 | resp <;> rfl

/-- C7 counterexample: with a failed driver installation, fetching a page
that serves one meta tag, one link and one image yields a result equal to a
plain static fetch — its metadata lists exactly the page annotations,
links, images, status code and content type, recording nothing about the
strategy substitution. -/
theorem C7_no_substitution_in_metadata :
    ((WebScraper.init true noDriver).scrape httpPage driveNone "https://example.test/page" =
      scrape_with_requests httpPage "https://example.test/page") ∧
    ((WebScraper.init true noDriver).scrape httpPage driveNone "https://example.test/page" =
      (WebScraper.init false noDriver).scrape httpPage driveNone "https://example.test/page") ∧
    (((WebScraper.init true noDriver).scrape httpPage driveNone
        "https://example.test/page").metadata =
      [("author", MetaVal.s "Arun"), ("links", MetaVal.ls ["https://example.test/next"]),
       ("images", MetaVal.ls ["https://example.test/logo.png"]),
       ("status_code", MetaVal.n 200), ("content_type", MetaVal.s "text/html")]) := by
  exact ⟨rfl, rfl, by decide⟩

/-- C8: `extract_content` tests the fixed selector list in priority order —
whenever the list splits as `before ++ sel :: after` with nothing in
`before` matching and `sel` matching with text `text`, the body is `text`;
and when no selector matches at all, the body is the full document text. -/
theorem C8_content_selector_priority (soup : Soup) :
    (∀ before sel after text, content_selectors = before ++ sel :: after →
      (∀ s ∈ before, soup.selectOne s = none) → soup.selectOne sel = some text →
      extract_content soup = text) ∧
    ((∀ s ∈ content_selectors, soup.selectOne s = none) →
      extract_content soup = soup.fullText) := by
  constructor
  · intro before sel after text hsplit hnone hsel
    unfold extract_content
    rw [hsplit, findSome?_append_of_none _ hnone, findSome?_cons_of_some _ hsel]
  · intro hall
    unfold extract_content
    rw [findSome?_eq_none_of_all_none hall]

/-- C8 witness: a document matched only by ".content" (third in priority)
satisfies the hypotheses, and its extracted body is that region's text. -/
theorem C8_content_selector_witness :
    (content_selectors = ["main", "article"] ++ ".content" ::
      [".main-content", "#content", "#main", ".post-content", ".entry-content"]) ∧
    (∀ s ∈ ["main", "article"], soupDotContent.selectOne s = none) ∧
    (soupDotContent.selectOne ".content" = some "picked") ∧
    extract_content soupDotContent = "picked" := by
  refine ⟨by decide, by decide, by decide, ?_⟩
  exact (C8_content_selector_priority soupDotContent).1 ["main", "article"] ".content"
    [".main-content", "#content", "#main", ".post-content", ".entry-content"] "picked"
    (by decide) (by decide) (by decide)

/-- C9: unscheduling never physically deletes a job row — the table keeps
its length, and every row keeps its id, url, schedule, creation time,
last_run and next_run, only the matching row's status becoming
`inactive`. -/
theorem C9_unschedule_never_deletes (s : SchedState) (job_id : Nat) :
    ((remove_scheduled_job s job_id).db.jobs.length = s.db.jobs.length) ∧
    List.Forall₂ (fun old new =>
        new.id = old.id ∧ new.url = old.url ∧ new.schedule = old.schedule ∧
        new.created_at = old.created_at ∧ new.last_run = old.last_run ∧
        new.next_run = old.next_run ∧
        new.status = (if old.id = job_id then "inactive" else old.status))
      s.db.jobs (remove_scheduled_job s job_id).db.jobs := by
  constructor
  · simp [remove_scheduled_job, update_job_status]
  · simp only [remove_scheduled_job, update_job_status]
    refine forall2_map_self _ _ _ (fun j => ?_)
    by_cases hj : j.id = job_id <;> simp [hj]

/-- C10: the aggregate the batch loop returns sets its top-level `success`
field to `True` unconditionally once the per-URL loop completes — even when
every target failed, as the all-failing batch shows (`successful = 0`,
`failed = 2`, yet `success = true`). -/
theorem C10_batch_success_reflects_completion (http : HttpOracle)
    (driverInit : Except String Driver) (drive : DriveOracle)
    (use_selenium : Bool) (urls : List String) :
    ((scrape_multiple_urls_loop http driverInit drive use_selenium urls).value.success
      = true) ∧
    ((scrape_multiple_urls_loop httpDown noDriver driveNone false
        ["a", "b"]).value.successfulCount = some 0) ∧
    ((scrape_multiple_urls_loop httpDown noDriver driveNone false
        ["a", "b"]).value.failedCount = some 2) ∧
    ((scrape_multiple_urls_loop httpDown noDriver driveNone false
        ["a", "b"]).value.success = true) := by
  exact ⟨rfl, by decide, by decide, rfl⟩

end CodecScraper
